import Mathlib

/-!
Shallow embedding of the MCP connection manager
(`backend/app/services/mcp_client.py`) and proofs about its behaviour.

The embedding follows the Python source line by line.  External effects
(subprocess exit codes, handshake/response lines read from pipes, HTTP
responses) are supplied by explicit environment records; the mutable
client state (`active_connections`, `server_processes`, the set of spawned
processes and of temporary directories) is threaded explicitly.
-/

namespace MCP

/-- Association-list lookup, modelling a Python dict read `m[k]` / `k in m`. -/
def dlookup {α : Type} (k : Nat) : List (Nat × α) → Option α
  | [] => none
  | (k', v) :: m => if k' = k then some v else dlookup k m

/-- Remove every binding of key `k`, modelling `del m[k]` (keys are unique
in a real dict, so removing all bindings agrees with removing the one). -/
def derase {α : Type} (k : Nat) : List (Nat × α) → List (Nat × α)
  | [] => []
  | (k', v) :: m => if k' = k then derase k m else (k', v) :: derase k m

/-- Dict assignment `m[k] = v`: the new binding replaces any previous one. -/
def dinsert {α : Type} (k : Nat) (v : α) (m : List (Nat × α)) : List (Nat × α) :=
  (k, v) :: derase k m

/-- Opaque stand-in for a tool-descriptor dictionary returned by a server. -/
abbrev ToolDesc := String

/-- The fields of `models.mcp_server.MCPServer` read by the client. -/
structure MCPServer where
  id : Nat
  name : String
  url : String
  repository_url : Option String
  package_manager : Option String
  package_name : Option String
  discovered_from : Option String
deriving Repr, DecidableEq

/-- The `type` tag stored in an `active_connections` entry. -/
inductive ConnType
  | npm
  | pip
  | github
  | http
deriving Repr, DecidableEq

/-- One `active_connections` value: the `type` tag plus the process handle,
temp directory and url that the corresponding dict literal stores. -/
structure Connection where
  ctype : ConnType
  procId : Option Nat
  temp_dir : Option Nat
  url : Option String
deriving Repr, DecidableEq

/-- A spawned server process: its handle, the server it was spawned for,
and whether it is still running. -/
structure ProcInfo where
  pid : Nat
  serverId : Nat
  alive : Bool
deriving Repr, DecidableEq

/-- A temporary directory created by `tempfile.mkdtemp`: its handle, the
server id embedded in its name, and whether it is still on disk. -/
structure DirInfo where
  did : Nat
  serverId : Nat
  onDisk : Bool
deriving Repr, DecidableEq

/-- The mutable state of an `MCPClient` instance plus the external
resources (processes, temp directories) its calls have created. -/
structure ClientState where
  active_connections : List (Nat × Connection)
  server_processes : List (Nat × Nat)
  procs : List ProcInfo
  dirs : List DirInfo
  nextProc : Nat
  nextTemp : Nat
deriving Repr, DecidableEq

/-- `tempfile.mkdtemp(prefix=f"mcp_{server.id}_")`: a fresh, uniquely named
directory appears on disk. -/
def mkdtemp (sid : Nat) (st : ClientState) : Nat × ClientState :=
  (st.nextTemp,
    { st with dirs := st.dirs ++ [⟨st.nextTemp, sid, true⟩], nextTemp := st.nextTemp + 1 })

/-- `asyncio.create_subprocess_exec(...)` for a server process: a fresh
process starts running. -/
def spawnProc (sid : Nat) (st : ClientState) : Nat × ClientState :=
  (st.nextProc,
    { st with procs := st.procs ++ [⟨st.nextProc, sid, true⟩], nextProc := st.nextProc + 1 })

/-- `process.terminate()` (or `kill()`): the process stops running. -/
def terminateProc (pid : Nat) (st : ClientState) : ClientState :=
  { st with procs := st.procs.map (fun p => if p.pid == pid then { p with alive := false } else p) }

/-- `shutil.rmtree(d, ignore_errors=True)`: the directory leaves the disk. -/
def rmtreeDir (did : Nat) (st : ClientState) : ClientState :=
  { st with dirs := st.dirs.map (fun d => if d.did == did then { d with onDisk := false } else d) }

/-- Number of still-running processes spawned for `sid`. -/
def aliveProcsFor (sid : Nat) (st : ClientState) : Nat :=
  (st.procs.filter (fun p => p.serverId == sid && p.alive)).length

/-- Number of temp directories created for `sid` that are still on disk. -/
def onDiskDirsFor (sid : Nat) (st : ClientState) : Nat :=
  (st.dirs.filter (fun d => d.serverId == sid && d.onDisk)).length

/-- Number of `active_connections` entries recorded under `sid`. -/
def connectionsFor (sid : Nat) (st : ClientState) : Nat :=
  (st.active_connections.filter (fun p => p.1 == sid)).length

/-- What one `readline()` of a response to the `initialize` message yields:
a timeout, an empty line, a JSON object (with or without a `result` key),
or an unparsable line. -/
inductive LineOutcome
  | timeout
  | emptyLine
  | json (hasResult : Bool)
  | badJson
deriving Repr, DecidableEq

/-- Outcomes of the install step and the handshake of one
`_connect_npm_server` / `_connect_pip_server` attempt. -/
structure SpawnEnv where
  installReturncode : Int
  installStderr : String
  handshake : LineOutcome
deriving Repr, DecidableEq

/-- Project layout found in a cloned repository. -/
inductive ProjectKind
  | node
  | python
  | unknown
deriving Repr, DecidableEq

/-- Outcomes of the clone and dependency-install steps of one
`_connect_github_server` attempt.  The source never reads
`depsReturncode` and performs no handshake on this path, so the
`handshake` field is never consulted either. -/
structure GithubEnv where
  cloneReturncode : Int
  cloneStderr : String
  project : ProjectKind
  depsReturncode : Int
  handshake : LineOutcome
deriving Repr, DecidableEq

/-- Outcome of `GET {url}/health` in `_connect_http_server`: a status code,
or an exception message. -/
structure HttpEnv where
  healthGet : Except String Nat
deriving Repr

/-- Environments for all four strategies of one `connect_to_server` call. -/
structure ConnectEnv where
  npm : SpawnEnv
  pip : SpawnEnv
  github : GithubEnv
  http : HttpEnv
deriving Repr

/-- `MCPClient._connect_npm_server`.  A temp directory is always created
first; a nonzero `npm install` exit logs the stderr and returns `False`
with the directory left on disk; otherwise `npx` is spawned, the process
is stored in `server_processes`, and the `initialize` handshake decides:
a `result` response registers the connection and returns `True`; a timeout
terminates the process and returns `False`; any other line falls through
to `return False` with the process still running.  No branch removes the
temp directory. -/
def connectNpm (env : SpawnEnv) (server : MCPServer) (st : ClientState) :
    Bool × ClientState :=
  let r := mkdtemp server.id st
  let td := r.1
  let st := r.2
  if env.installReturncode ≠ 0 then
    (false, st)
  else
    let r2 := spawnProc server.id st
    let pid := r2.1
    let st := r2.2
    let st := { st with server_processes := dinsert server.id pid st.server_processes }
    match env.handshake with
    | .timeout => (false, terminateProc pid st)
    | .emptyLine => (false, st)
    | .json true =>
        let conn : Connection := ⟨ConnType.npm, some pid, some td, none⟩
        (true, { st with active_connections := dinsert server.id conn st.active_connections })
    | .json false => (false, st)
    | .badJson => (false, st)

/-- `MCPClient._connect_pip_server`: like the npm path but with no temp
directory, and on success the stored connection records no `temp_dir`. -/
def connectPip (env : SpawnEnv) (server : MCPServer) (st : ClientState) :
    Bool × ClientState :=
  if env.installReturncode ≠ 0 then
    (false, st)
  else
    let r2 := spawnProc server.id st
    let pid := r2.1
    let st := r2.2
    let st := { st with server_processes := dinsert server.id pid st.server_processes }
    match env.handshake with
    | .timeout => (false, terminateProc pid st)
    | .emptyLine => (false, st)
    | .json true =>
        let conn : Connection := ⟨ConnType.pip, some pid, none, none⟩
        (true, { st with active_connections := dinsert server.id conn st.active_connections })
    | .json false => (false, st)
    | .badJson => (false, st)

/-- `MCPClient._connect_github_server`.  A missing repository url returns
`False` before any resource is created.  Otherwise a temp directory is
created and the repository cloned into it; a nonzero clone exit returns
`False` with the directory left on disk.  The project kind is detected by
manifest file; an unrecognized layout returns `False` (directory left on
disk).  The dependency-install step is awaited but its exit status is
never inspected, the entry point is spawned, and the connection is
registered immediately — no `initialize` handshake is performed on this
path. -/
def connectGithub (env : GithubEnv) (server : MCPServer) (st : ClientState) :
    Bool × ClientState :=
  match server.repository_url with
  | none => (false, st)
  | some u =>
    if u = "" then (false, st)
    else
      let r := mkdtemp server.id st
      let td := r.1
      let st := r.2
      if env.cloneReturncode ≠ 0 then
        (false, st)
      else
        match env.project with
        | .unknown => (false, st)
        | _ =>
          let r2 := spawnProc server.id st
          let pid := r2.1
          let st := r2.2
          let conn : Connection := ⟨ConnType.github, some pid, some td, none⟩
          let st := { st with server_processes := dinsert server.id pid st.server_processes }
          (true, { st with active_connections := dinsert server.id conn st.active_connections })

/-- `MCPClient._connect_http_server`: `GET {url}/health`; status 200
registers an http connection, anything else (or an exception) returns
`False`. -/
def connectHttpServer (env : HttpEnv) (server : MCPServer) (st : ClientState) :
    Bool × ClientState :=
  match env.healthGet with
  | .ok status =>
      if status = 200 then
        let conn : Connection := ⟨ConnType.http, none, none, some server.url⟩
        (true, { st with active_connections := dinsert server.id conn st.active_connections })
      else (false, st)
  | .error _ => (false, st)

/-- `MCPClient._connect_generic_server`: http when the url starts with
`http`, otherwise `False`. -/
def connectGeneric (env : HttpEnv) (server : MCPServer) (st : ClientState) :
    Bool × ClientState :=
  if server.url.startsWith "http" then connectHttpServer env server st
  else (false, st)

/-- `MCPClient.connect_to_server`: dispatch on `package_manager` /
`discovered_from` / `url`.  There is no check of `active_connections`
before dispatching: every call provisions afresh. -/
def connectToServer (env : ConnectEnv) (server : MCPServer) (st : ClientState) :
    Bool × ClientState :=
  if server.package_manager = some "npm" then connectNpm env.npm server st
  else if server.package_manager = some "pip" then connectPip env.pip server st
  else if server.discovered_from = some "github" then connectGithub env.github server st
  else connectGeneric env.http server st

/-- `MCPClient.disconnect_from_server`: when the id is connected, terminate
the process of a stdio-type connection (graceful wait, then kill — same
final liveness either way), remove its temp directory when one is
recorded, and delete the `active_connections` entry; then delete the
`server_processes` entry when present.  Absent ids fall through silently. -/
def disconnectFromServer (server_id : Nat) (st : ClientState) : ClientState :=
  let st :=
    match dlookup server_id st.active_connections with
    | some conn =>
      let st :=
        if conn.ctype = ConnType.http then st
        else
          match conn.procId with
          | some pid => terminateProc pid st
          | none => st
      let st :=
        match conn.temp_dir with
        | some td => rmtreeDir td st
        | none => st
      { st with active_connections := derase server_id st.active_connections }
    | none => st
  { st with server_processes := derase server_id st.server_processes }

/-- The exception values that can cross `mcp_client` function boundaries. -/
inductive MCPErr
  | serverConnectionError (msg : String)
  | toolExecutionError (msg : String)
  | attrError (msg : String)
  | retryError (last : MCPErr)
deriving Repr, DecidableEq

/-- Exception class of an `MCPErr` value, for classification results. -/
inductive ErrKind
  | serverConnection
  | toolExecution
  | attr
  | retry
deriving Repr, DecidableEq

/-- The class of an exception value. -/
def MCPErr.kind : MCPErr → ErrKind
  | .serverConnectionError _ => .serverConnection
  | .toolExecutionError _ => .toolExecution
  | .attrError _ => .attr
  | .retryError _ => .retry

/-- `str(e)` for an exception value. -/
def MCPErr.msg : MCPErr → String
  | .serverConnectionError m => m
  | .toolExecutionError m => m
  | .attrError m => m
  | .retryError e => e.msg

/-- Class of the exception of a failed call, `none` for a normal return. -/
def errKind {α : Type} : Except MCPErr α → Option ErrKind
  | .ok _ => none
  | .error e => some e.kind

/-- Outcome of the `POST {url}/tools/list` in `_list_tools_http`:
status 200 with a parsed tool list, another status (the function then ends
without a `return`, producing Python `None`), or an exception (caught,
producing `[]`). -/
inductive HttpListOutcome
  | ok (tools : List ToolDesc)
  | non200
  | exc
deriving Repr, DecidableEq

/-- Outcome of the `tools/list` round trip in `_list_tools_stdio`. -/
inductive StdioListOutcome
  | ok (tools : List ToolDesc)
  | emptyLine
  | timeout
  | badJson
deriving Repr, DecidableEq

/-- Transport outcomes for one `list_tools` call. -/
structure ListToolsEnv where
  http : HttpListOutcome
  stdio : StdioListOutcome
deriving Repr, DecidableEq

/-- `MCPClient._list_tools_http`: `some tools` on 200, Python `None`
(modelled `none`) on another status, `some []` when an exception is
caught. -/
def listToolsHttp (o : HttpListOutcome) : Option (List ToolDesc) :=
  match o with
  | .ok ts => some ts
  | .non200 => none
  | .exc => some []

/-- `MCPClient._list_tools_stdio`: the parsed tools on success, `[]` on an
empty line, a caught timeout or a caught parse error. -/
def listToolsStdio (o : StdioListOutcome) : List ToolDesc :=
  match o with
  | .ok ts => ts
  | .emptyLine => []
  | .timeout => []
  | .badJson => []

/-- `MCPClient.list_tools`.  An unconnected id raises
`MCPServerConnectionError` inside the `try`, which the blanket
`except Exception` immediately rewraps into `MCPToolExecutionError`;
connected ids dispatch by connection type (the helpers swallow their own
failures). -/
def list_tools (env : ListToolsEnv) (server_id : Nat) (st : ClientState) :
    Except MCPErr (Option (List ToolDesc)) :=
  match dlookup server_id st.active_connections with
  | none =>
      .error (.toolExecutionError
        s!"Failed to list tools: Not connected to server {server_id}")
  | some conn =>
      if conn.ctype = ConnType.http then .ok (listToolsHttp env.http)
      else .ok (some (listToolsStdio env.stdio))

/-- The dict returned by `get_server_capabilities`, with `none` for keys a
given branch does not set. -/
structure CapsDict where
  connected : Bool
  tools : Option (List ToolDesc)
  tool_count : Option Nat
  error : Option String
deriving Repr, DecidableEq

/-- `MCPClient.get_server_capabilities`: every failure (the unconnected
raise, a `list_tools` exception, or `len(None)` when the http helper
returned `None`) is caught and turned into a `connected: False` dict with
an `error` string; success reports the tools, their count and
`connected: True`. -/
def get_server_capabilities (env : ListToolsEnv) (server_id : Nat) (st : ClientState) :
    CapsDict :=
  match dlookup server_id st.active_connections with
  | none => ⟨false, none, none, some s!"Not connected to server {server_id}"⟩
  | some _ =>
      match list_tools env server_id st with
      | .error e => ⟨false, none, none, some e.msg⟩
      | .ok none => ⟨false, none, none, some "object of type NoneType has no len()"⟩
      | .ok (some ts) => ⟨true, some ts, some ts.length, none⟩

/-- The dict returned by `health_check`, with `none` for keys a given
branch does not set. -/
structure HealthDict where
  status : String
  healthy : Bool
  response_time_ms : Option Nat
  error : Option String
deriving Repr, DecidableEq

/-- Outcome of the `ping` round trip in `_health_check_stdio`, were it
reached: a response line (with its latency), an empty line, a timeout, or
an exception while writing/reading. -/
inductive PingOutcome
  | line (rt : Nat)
  | emptyLine
  | timeout
  | exc (msg : String)
deriving Repr, DecidableEq

/-- Transport outcomes for one `health_check` call. -/
structure HealthEnv where
  httpHealth : Except String (Nat × Nat)
  ping : PingOutcome
deriving Repr

/-- `process.poll()` as called by `_health_check_stdio`.  The stored
process objects come from `asyncio.create_subprocess_exec` and are
`asyncio.subprocess.Process` values, an API that exposes `returncode` but
has no `poll` method (`poll` is `subprocess.Popen` API); the attribute
access therefore raises `AttributeError` whatever the process state. -/
def processPoll (_p : ProcInfo) : Except MCPErr (Option Int) :=
  .error (.attrError "Process object has no attribute poll")

/-- Look up a spawned process by handle. -/
def findProc (pid : Nat) (st : ClientState) : Option ProcInfo :=
  st.procs.find? (fun p => p.pid == pid)

/-- `MCPClient._health_check_http`: 200 is healthy, another status
unhealthy, an exception an error dict. -/
def healthCheckHttp (env : HealthEnv) : HealthDict :=
  match env.httpHealth with
  | .ok (status, rt) =>
      if status = 200 then ⟨"healthy", true, some rt, none⟩
      else ⟨"unhealthy", false, some rt, none⟩
  | .error m => ⟨"error", false, none, some m⟩

/-- `MCPClient._health_check_stdio`: first `process.poll()` — meant to
report `dead` for an exited process before any ping, but see
`processPoll` — then the ping round trip; every exception is caught into
an error dict, a timeout into a timeout dict, an empty line falls through
to the `unknown` dict. -/
def healthCheckStdio (env : HealthEnv) (conn : Connection) (st : ClientState) :
    HealthDict :=
  match conn.procId.bind (fun pid => findProc pid st) with
  | none => ⟨"error", false, none, some "KeyError: process"⟩
  | some p =>
      match processPoll p with
      | .error e => ⟨"error", false, none, some e.msg⟩
      | .ok (some _) => ⟨"dead", false, none, none⟩
      | .ok none =>
          match env.ping with
          | .line rt => ⟨"healthy", true, some rt, none⟩
          | .timeout => ⟨"timeout", false, none, none⟩
          | .emptyLine => ⟨"unknown", false, none, none⟩
          | .exc m => ⟨"error", false, none, some m⟩

/-- `MCPClient.health_check`: an unconnected id returns the disconnected
dict (no exception), otherwise dispatch by connection type; the outer
blanket `except` means every path returns a dict. -/
def health_check (env : HealthEnv) (server_id : Nat) (st : ClientState) : HealthDict :=
  match dlookup server_id st.active_connections with
  | none => ⟨"disconnected", false, none, none⟩
  | some conn =>
      if conn.ctype = ConnType.http then healthCheckHttp env
      else healthCheckStdio env conn st

/-- A tool-call result dict: the empty dict that the fall-through paths
return, or a payload. -/
inductive ToolResult
  | emptyDict
  | payload (v : String)
deriving Repr, DecidableEq

/-- What one `tools/call` round trip on a stdio connection yields: a
response line with a `result` key, one with an `error` key, one with
neither, an empty line, a timeout, or an unparsable line. -/
inductive StdioCallOutcome
  | result (v : String)
  | rpcError (msg : String)
  | neither
  | emptyLine
  | timeout
  | badJson
deriving Repr, DecidableEq

/-- What one `POST {url}/tools/call` yields. -/
inductive HttpCallOutcome
  | ok (v : ToolResult)
  | non200 (status : Nat)
  | exc (msg : String)
deriving Repr, DecidableEq

/-- Per-attempt transport outcomes for one `execute_tool` call (the
tenacity wrapper re-runs the body, so outcomes are indexed by attempt). -/
structure ExecEnv where
  stdio : Nat → StdioCallOutcome
  http : Nat → HttpCallOutcome

/-- One run of the `execute_tool` body (the function tenacity wraps): the
unconnected raise and every transport or server failure surface as
`MCPToolExecutionError` via the blanket rewrap; a `result` response (or
the fall-through empty dict) is returned. -/
def executeToolOnce (env : ExecEnv) (attempt : Nat) (server_id : Nat) (st : ClientState) :
    Except MCPErr ToolResult :=
  match dlookup server_id st.active_connections with
  | none =>
      .error (.toolExecutionError
        s!"Tool execution failed: Not connected to server {server_id}")
  | some conn =>
      if conn.ctype = ConnType.http then
        match env.http attempt with
        | .ok v => .ok v
        | .non200 status =>
            .error (.toolExecutionError s!"Tool execution failed: HTTP error: {status}")
        | .exc m => .error (.toolExecutionError s!"Tool execution failed: {m}")
      else
        match env.stdio attempt with
        | .result v => .ok (.payload v)
        | .rpcError m =>
            .error (.toolExecutionError ("Tool execution failed: Tool error: " ++ m))
        | .neither => .ok .emptyDict
        | .emptyLine => .ok .emptyDict
        | .timeout => .error (.toolExecutionError "Tool execution failed: ")
        | .badJson => .error (.toolExecutionError "Tool execution failed: Expecting value")

/-- `tenacity.wait_exponential(multiplier, min, max)` evaluated after the
`attemptNumber`-th attempt: `multiplier * 2 ^ attemptNumber` clamped into
`[lo, hi]`. -/
def wait_exponential (multiplier lo hi attemptNumber : Nat) : Nat :=
  max lo (min (multiplier * 2 ^ attemptNumber) hi)

/-- Result of a tenacity-wrapped call: how many attempts ran, the sleeps
between them, and the final outcome (`retryError` wraps the last
exception once the attempt cap is reached, as `tenacity.RetryError`
does with the default `reraise=False`). -/
structure RetryOutcome (A : Type) where
  attempts : Nat
  waits : List Nat
  result : Except MCPErr A
deriving Repr

/-- `@retry(stop=stop_after_attempt(fuel), wait=wait_exponential(1, 4, 10))`
applied to `f`, starting from `idx` already-made attempts.  The default
retry condition retries EVERY exception; the stop condition is checked
before sleeping, so no sleep follows the final failed attempt. -/
def tenacityRetry {A : Type} (f : Nat → Except MCPErr A) :
    (fuel idx : Nat) → RetryOutcome A
  | 0, idx => ⟨idx, [], .error (.retryError (.toolExecutionError ""))⟩
  | fuel + 1, idx =>
    match f idx with
    | .ok v => ⟨idx + 1, [], .ok v⟩
    | .error e =>
      if fuel = 0 then ⟨idx + 1, [], .error (.retryError e)⟩
      else
        let r := tenacityRetry f fuel (idx + 1)
        ⟨r.attempts, wait_exponential 1 4 10 (idx + 1) :: r.waits, r.result⟩

/-- `MCPClient.execute_tool` as decorated:
`@retry(stop=stop_after_attempt(3), wait=wait_exponential(multiplier=1, min=4, max=10))`
around `executeToolOnce`. -/
def execute_tool (env : ExecEnv) (server_id : Nat) (st : ClientState) :
    RetryOutcome ToolResult :=
  tenacityRetry (fun i => executeToolOnce env i server_id st) 3 0

/-- The empty client state at start-up. -/
def st0 : ClientState := ⟨[], [], [], [], 0, 0⟩

/-- A concrete npm-provisioned server descriptor. -/
def srvNpm : MCPServer := ⟨1, "files", "stdio", none, some "npm", some "server-files", none⟩

/-- A concrete github-discovered server descriptor. -/
def srvGit : MCPServer :=
  ⟨2, "gsrv", "stdio", some "https://example.com/x/y.git", none, none, some "github"⟩

/-- An environment in which every provisioning step succeeds. -/
def envOkC : ConnectEnv :=
  ⟨⟨0, "", .json true⟩, ⟨0, "", .json true⟩, ⟨0, "", .node, 0, .json true⟩, ⟨.ok 200⟩⟩

/-- An npm environment whose install step exits 1. -/
def envBadInstall : SpawnEnv := ⟨1, "npm ERR! 404 Not Found", .json true⟩

/-- A github environment whose dependency-install step exits 1 and whose
handshake, were one attempted, would time out. -/
def envGitBad : GithubEnv := ⟨0, "", .node, 1, .timeout⟩

/-- The connection dict that a first successful npm connect stores. -/
def connNpm1 : Connection := ⟨ConnType.npm, some 0, some 0, none⟩

/-- A state holding one live npm stdio connection for server 1. -/
def stStdio : ClientState :=
  ⟨[(1, connNpm1)], [(1, 0)], [⟨0, 1, true⟩], [⟨0, 1, true⟩], 1, 1⟩

/-- Like `stStdio` but the spawned process has already exited. -/
def stDead : ClientState :=
  ⟨[(1, connNpm1)], [(1, 0)], [⟨0, 1, false⟩], [⟨0, 1, true⟩], 1, 1⟩

/-- A state holding one http connection for server 3. -/
def stHttp : ClientState :=
  ⟨[(3, ⟨ConnType.http, none, none, some "http://h"⟩)], [], [], [], 0, 0⟩

/-- A concrete health environment: the http probe answers 200 in 5 ms and
a ping, were one sent, would be answered. -/
def envH0 : HealthEnv := ⟨.ok (200, 5), .line 5⟩

/-- A concrete list-tools environment with empty answers. -/
def envL0 : ListToolsEnv := ⟨.ok [], .ok []⟩

/-- A concrete execution environment whose every attempt times out. -/
def envE0 : ExecEnv := ⟨fun _ => .timeout, fun _ => .exc "timeout"⟩

/-- An execution environment whose every stdio attempt returns a JSON-RPC
error object. -/
def envRpcErr : ExecEnv := ⟨fun _ => .rpcError "boom", fun _ => .ok .emptyDict⟩

/-- An execution environment timing out twice, then succeeding. -/
def envTTS : ExecEnv :=
  ⟨fun i => if i < 2 then .timeout else .result "ok", fun _ => .ok .emptyDict⟩

/-! Helper lemmas about the dict operations and the retry wrapper. -/

/-- Looking up a key just deleted yields nothing. -/
theorem dlookup_derase_self {α : Type} (k : Nat) (m : List (Nat × α)) :
    dlookup k (derase k m) = none := by
  induction m with
  | nil => rfl
  | cons p m ih =>
    obtain ⟨k', v⟩ := p
    by_cases h : k' = k
    · simp [derase, h, ih]
    · simp [derase, dlookup, h, ih]

/-- Deleting one key leaves lookups of every other key unchanged. -/
theorem dlookup_derase_ne {α : Type} (k j : Nat) (m : List (Nat × α)) (h : j ≠ k) :
    dlookup j (derase k m) = dlookup j m := by
  induction m with
  | nil => rfl
  | cons p m ih =>
    obtain ⟨k', v⟩ := p
    by_cases hk : k' = k
    · subst hk
      have hkj : ¬ k' = j := fun e => h e.symm
      simp [derase, dlookup, hkj, ih]
    · simp [derase, hk, dlookup, ih]

/-- Looking up a key just assigned yields the assigned value. -/
theorem dlookup_dinsert_self {α : Type} (k : Nat) (v : α) (m : List (Nat × α)) :
    dlookup k (dinsert k v m) = some v := by
  simp [dinsert, dlookup]

/-- After deleting key `k` no entry with key `k` remains. -/
theorem filter_key_derase {α : Type} (k : Nat) (m : List (Nat × α)) :
    (derase k m).filter (fun p => p.1 == k) = [] := by
  induction m with
  | nil => rfl
  | cons p m ih =>
    obtain ⟨k', v⟩ := p
    by_cases h : k' = k
    · simp [derase, h, ih]
    · simp [derase, h, List.filter_cons, ih]

/-- Dict assignment leaves exactly one entry under the assigned key. -/
theorem keyCount_dinsert {α : Type} (k : Nat) (v : α) (m : List (Nat × α)) :
    ((dinsert k v m).filter (fun p => p.1 == k)).length = 1 := by
  simp [dinsert, List.filter_cons, filter_key_derase]

/-- Unrolling of the tenacity wrapper at its configured cap of 3 attempts:
a success returns at once; each failure sleeps (4s, then 4s, by the
clamped exponential wait) and re-runs; the third failure surfaces as a
`RetryError` wrapping the last exception. -/
theorem tenacityRetry3_cases {A : Type} (f : Nat → Except MCPErr A) :
    tenacityRetry f 3 0 =
      match f 0 with
      | .ok v => ⟨1, [], .ok v⟩
      | .error _ =>
        match f 1 with
        | .ok v => ⟨2, [4], .ok v⟩
        | .error _ =>
          match f 2 with
          | .ok v => ⟨3, [4, 4], .ok v⟩
          | .error e => ⟨3, [4, 4], .error (.retryError e)⟩ := by
  rcases h0 : f 0 with e0 | v0 <;> rcases h1 : f 1 with e1 | v1 <;> rcases h2 : f 2 with e2 | v2 <;>
    simp [tenacityRetry, h0, h1, h2, wait_exponential]

/-- A fully successful npm connect: one fresh temp directory, one fresh
running process, both registry entries overwritten with the new handles. -/
theorem connectNpm_success (env : SpawnEnv) (srv : MCPServer) (st : ClientState)
    (h0 : env.installReturncode = 0) (hh : env.handshake = .json true) :
    connectNpm env srv st =
      (true,
        { active_connections :=
            dinsert srv.id ⟨ConnType.npm, some st.nextProc, some st.nextTemp, none⟩
              st.active_connections,
          server_processes := dinsert srv.id st.nextProc st.server_processes,
          procs := st.procs ++ [⟨st.nextProc, srv.id, true⟩],
          dirs := st.dirs ++ [⟨st.nextTemp, srv.id, true⟩],
          nextProc := st.nextProc + 1,
          nextTemp := st.nextTemp + 1 }) := by
  simp [connectNpm, mkdtemp, spawnProc, h0, hh]

/-- C1, counterexample.  The claim says a second `connect` for an
already-connected server id returns the existing success without
re-provisioning, leaving exactly one subprocess and one temp directory
for that id.  In the code `connect_to_server` never consults
`active_connections`: after two fully successful npm connects for server
1 there are two running processes and two on-disk temp directories for
id 1. -/
theorem c1_counterexample :
    aliveProcsFor 1 ((connectToServer envOkC srvNpm ((connectToServer envOkC srvNpm st0).2)).2) = 2
    ∧ onDiskDirsFor 1
        ((connectToServer envOkC srvNpm ((connectToServer envOkC srvNpm st0).2)).2) = 2 := by
  decide

/-- C1, amended.  A repeated `connect` for an npm server re-provisions
unconditionally: the second successful call spawns a second process and
creates a second temp directory, then overwrites both registry entries,
so afterwards exactly one Connection is registered for the id but two
processes run and two temp directories exist — the old ones are leaked. -/
theorem c1_theorem (srv : MCPServer) (env : ConnectEnv) (st : ClientState)
    (hpm : srv.package_manager = some "npm")
    (hinst : env.npm.installReturncode = 0)
    (hhs : env.npm.handshake = .json true) :
    (connectToServer env srv ((connectToServer env srv st).2)).1 = true
    ∧ connectionsFor srv.id ((connectToServer env srv ((connectToServer env srv st).2)).2) = 1
    ∧ aliveProcsFor srv.id ((connectToServer env srv ((connectToServer env srv st).2)).2)
        = aliveProcsFor srv.id st + 2
    ∧ onDiskDirsFor srv.id ((connectToServer env srv ((connectToServer env srv st).2)).2)
        = onDiskDirsFor srv.id st + 2 := by
  have key : ∀ s : ClientState, connectToServer env srv s = connectNpm env.npm srv s := by
    intro s; simp [connectToServer, hpm]
  rw [key, key, connectNpm_success _ _ _ hinst hhs, connectNpm_success _ _ _ hinst hhs]
  refine ⟨rfl, keyCount_dinsert _ _ _, ?_, ?_⟩
  · simp [aliveProcsFor, List.filter_append]
  · simp [onDiskDirsFor, List.filter_append]

/-- C1, witness: the amended statement evaluated for server 1 from the
empty state. -/
theorem c1_witness :
    (connectToServer envOkC srvNpm ((connectToServer envOkC srvNpm st0).2)).1 = true
    ∧ connectionsFor 1 ((connectToServer envOkC srvNpm ((connectToServer envOkC srvNpm st0).2)).2)
        = 1
    ∧ aliveProcsFor 1 ((connectToServer envOkC srvNpm ((connectToServer envOkC srvNpm st0).2)).2)
        = aliveProcsFor 1 st0 + 2
    ∧ onDiskDirsFor 1 ((connectToServer envOkC srvNpm ((connectToServer envOkC srvNpm st0).2)).2)
        = onDiskDirsFor 1 st0 + 2 :=
  c1_theorem srvNpm envOkC st0 rfl rfl rfl

/-- C2, counterexample.  The claim says `listTools`, `executeTool`,
`getCapabilities` and `healthCheck` all raise `NotConnectedError`
(the code's `MCPServerConnectionError`) for an unconnected id.  In fact
`list_tools` surfaces an `MCPToolExecutionError` (the blanket rewrap),
and `get_server_capabilities` and `health_check` return plain dicts
without raising at all. -/
theorem c2_counterexample :
    errKind (list_tools envL0 7 st0) = some ErrKind.toolExecution
    ∧ health_check envH0 7 st0 = ⟨"disconnected", false, none, none⟩
    ∧ (get_server_capabilities envL0 7 st0).connected = false := by
  decide

/-- C2, amended.  For an unconnected id: `list_tools` raises
`MCPToolExecutionError` wrapping the not-connected message;
`execute_tool` makes 3 attempts (the wrapper retries the rewrapped
error) and surfaces a `RetryError` around an `MCPToolExecutionError`;
`get_server_capabilities` returns a `connected: False` dict with an
error string; `health_check` returns the disconnected dict.  None of the
four raises `MCPServerConnectionError` to the caller. -/
theorem c2_theorem (sid : Nat) (st : ClientState)
    (envL : ListToolsEnv) (envE : ExecEnv) (envH : HealthEnv)
    (h : dlookup sid st.active_connections = none) :
    list_tools envL sid st
        = .error (.toolExecutionError s!"Failed to list tools: Not connected to server {sid}")
    ∧ execute_tool envE sid st
        = ⟨3, [4, 4], .error (.retryError (.toolExecutionError
            s!"Tool execution failed: Not connected to server {sid}"))⟩
    ∧ get_server_capabilities envL sid st
        = ⟨false, none, none, some s!"Not connected to server {sid}"⟩
    ∧ health_check envH sid st = ⟨"disconnected", false, none, none⟩ := by
  refine ⟨?_, ?_, ?_, ?_⟩
  · simp [list_tools, h]
  · unfold execute_tool
    rw [tenacityRetry3_cases]
    simp [executeToolOnce, h]
  · simp [get_server_capabilities, h]
  · simp [health_check, h]

/-- C2, witness: the amended statement evaluated at the unconnected id 9. -/
theorem c2_witness :
    health_check envH0 9 st0 = ⟨"disconnected", false, none, none⟩ :=
  (c2_theorem 9 st0 envL0 envE0 envH0 rfl).2.2.2

/-- C3, counterexample.  The claim says a server-reported JSON-RPC error
makes exactly one attempt; with every attempt answering an `error`
object, `execute_tool` in fact makes 3 attempts, because the tenacity
decorator carries no retry condition and so retries every exception,
`MCPToolExecutionError` included. -/
theorem c3_counterexample :
    (execute_tool envRpcErr 1 stStdio).attempts = 3
    ∧ (execute_tool envRpcErr 1 stStdio).attempts ≠ 1 := by
  decide

/-- C3, amended.  A server-reported JSON-RPC error raises
`MCPToolExecutionError` on each attempt, but the wrapper retries it like
any exception: 3 attempts run (sleeping 4s twice) and the final failure
surfaces as a `RetryError` wrapping the `MCPToolExecutionError`. -/
theorem c3_theorem (env : ExecEnv) (sid : Nat) (st : ClientState) (conn : Connection) (m : String)
    (hc : dlookup sid st.active_connections = some conn)
    (ht : conn.ctype ≠ ConnType.http)
    (he : ∀ i, env.stdio i = .rpcError m) :
    execute_tool env sid st
      = ⟨3, [4, 4], .error (.retryError (.toolExecutionError
          ("Tool execution failed: Tool error: " ++ m)))⟩ := by
  unfold execute_tool
  rw [tenacityRetry3_cases]
  simp [executeToolOnce, hc, ht, he]

/-- C3, witness: the amended statement evaluated on the live stdio
connection of server 1 with every attempt answering an error object. -/
theorem c3_witness :
    execute_tool envRpcErr 1 stStdio
      = ⟨3, [4, 4], .error (.retryError (.toolExecutionError
          ("Tool execution failed: Tool error: " ++ "boom")))⟩ :=
  c3_theorem envRpcErr 1 stStdio connNpm1 "boom" rfl (by decide) (fun _ => rfl)

/-- C4, counterexample.  The claim says an npm connect whose install step
exits nonzero yields a failure carrying the captured stderr with the
temp directory removed from disk.  The code returns a bare `False`
(stderr is only logged) and never removes the directory: after the
failed attempt one temp directory for server 1 is still on disk. -/
theorem c4_counterexample :
    (connectNpm envBadInstall srvNpm st0).1 = false
    ∧ onDiskDirsFor 1 (connectNpm envBadInstall srvNpm st0).2 = 1 := by
  decide

/-- C4, amended.  An npm connect whose install step exits nonzero returns
`False` (the captured stderr is logged, not carried in the result),
spawns no server process and touches neither registry map, but the temp
directory created for the attempt is left on disk. -/
theorem c4_theorem (env : SpawnEnv) (srv : MCPServer) (st : ClientState)
    (h : env.installReturncode ≠ 0) :
    (connectNpm env srv st).1 = false
    ∧ (connectNpm env srv st).2.procs = st.procs
    ∧ (connectNpm env srv st).2.active_connections = st.active_connections
    ∧ (connectNpm env srv st).2.server_processes = st.server_processes
    ∧ onDiskDirsFor srv.id (connectNpm env srv st).2 = onDiskDirsFor srv.id st + 1 := by
  refine ⟨?_, ?_, ?_, ?_, ?_⟩ <;>
    simp [connectNpm, mkdtemp, h, onDiskDirsFor, List.filter_append]

/-- C4, witness: the amended statement evaluated for server 1 from the
empty state with an install step exiting 1. -/
theorem c4_witness :
    (connectNpm envBadInstall srvNpm st0).1 = false
    ∧ onDiskDirsFor 1 (connectNpm envBadInstall srvNpm st0).2 = onDiskDirsFor 1 st0 + 1 :=
  ⟨(c4_theorem envBadInstall srvNpm st0 (by decide)).1,
   (c4_theorem envBadInstall srvNpm st0 (by decide)).2.2.2.2⟩

/-- C5: transport-level failures of `execute_tool` are retried up to 3
attempts total with the clamped exponential backoff (4s, 4s) before the
final failure is surfaced, and a call timing out on its first two
attempts and succeeding on the third returns the success after exactly 3
attempts. -/
theorem c5_theorem (env envF : ExecEnv) (sid : Nat) (st : ClientState) (conn : Connection)
    (s : String)
    (hc : dlookup sid st.active_connections = some conn)
    (ht : conn.ctype ≠ ConnType.http)
    (h0 : env.stdio 0 = .timeout) (h1 : env.stdio 1 = .timeout) (h2 : env.stdio 2 = .result s)
    (hf : ∀ i, envF.stdio i = .timeout) :
    execute_tool env sid st = ⟨3, [4, 4], .ok (.payload s)⟩
    ∧ execute_tool envF sid st
        = ⟨3, [4, 4], .error (.retryError (.toolExecutionError "Tool execution failed: "))⟩ := by
  constructor
  · unfold execute_tool
    rw [tenacityRetry3_cases]
    simp [executeToolOnce, hc, ht, h0, h1, h2]
  · unfold execute_tool
    rw [tenacityRetry3_cases]
    simp [executeToolOnce, hc, ht, hf]

/-- C5, witness: two timeouts then a success give the success after
exactly 3 attempts; three timeouts give the surfaced final failure. -/
theorem c5_witness :
    execute_tool envTTS 1 stStdio = ⟨3, [4, 4], .ok (.payload "ok")⟩
    ∧ execute_tool envE0 1 stStdio
        = ⟨3, [4, 4], .error (.retryError (.toolExecutionError "Tool execution failed: "))⟩ :=
  c5_theorem envTTS envE0 1 stStdio connNpm1 "ok" rfl (by decide) rfl rfl rfl (fun _ => rfl)

/-- C6, counterexample.  The claim says every spawn-based connect checks
the install step exit status before spawning and requires a successful
initialize handshake before registering the connection.  On the github
path, with the dependency-install step exiting 1 and a handshake that
would time out were it attempted, the connection is nevertheless
registered and `True` returned: the install status is ignored and no
handshake is performed. -/
theorem c6_counterexample :
    (connectGithub envGitBad srvGit st0).1 = true
    ∧ dlookup 2 (connectGithub envGitBad srvGit st0).2.active_connections ≠ none := by
  decide

/-- C6, amended.  On the github path only the clone step exit status is
checked: a nonzero clone exit fails (with the temp directory left on
disk); once the clone succeeds and a manifest is recognized, the
dependency-install exit status and any would-be handshake outcome are
ignored — the entry point is spawned and the connection registered
immediately, whatever those outcomes. -/
theorem c6_theorem (env : GithubEnv) (srv : MCPServer) (st : ClientState) (u : String)
    (hr : srv.repository_url = some u) (hu : u ≠ "") (hp : env.project ≠ ProjectKind.unknown) :
    (env.cloneReturncode = 0 →
      (connectGithub env srv st).1 = true
      ∧ dlookup srv.id (connectGithub env srv st).2.active_connections
          = some ⟨ConnType.github, some st.nextProc, some st.nextTemp, none⟩
      ∧ aliveProcsFor srv.id (connectGithub env srv st).2 = aliveProcsFor srv.id st + 1)
    ∧ (env.cloneReturncode ≠ 0 →
      (connectGithub env srv st).1 = false
      ∧ onDiskDirsFor srv.id (connectGithub env srv st).2 = onDiskDirsFor srv.id st + 1) := by
  constructor
  · intro hc
    cases hpj : env.project with
    | unknown => exact absurd hpj hp
    | node =>
        refine ⟨?_, ?_, ?_⟩ <;>
          simp [connectGithub, hr, hu, hc, hpj, mkdtemp, spawnProc, dlookup_dinsert_self,
            aliveProcsFor, List.filter_append]
    | python =>
        refine ⟨?_, ?_, ?_⟩ <;>
          simp [connectGithub, hr, hu, hc, hpj, mkdtemp, spawnProc, dlookup_dinsert_self,
            aliveProcsFor, List.filter_append]
  · intro hc
    constructor <;>
      simp [connectGithub, hr, hu, hc, mkdtemp, onDiskDirsFor, List.filter_append]

/-- C6, witness: the amended statement evaluated for the github server 2
with a dependency install exiting 1 and a would-be handshake timeout. -/
theorem c6_witness :
    (connectGithub envGitBad srvGit st0).1 = true
    ∧ dlookup 2 (connectGithub envGitBad srvGit st0).2.active_connections
        = some ⟨ConnType.github, some 0, some 0, none⟩ :=
  ⟨((c6_theorem envGitBad srvGit st0 "https://example.com/x/y.git" rfl (by decide)
      (by decide)).1 rfl).1,
   ((c6_theorem envGitBad srvGit st0 "https://example.com/x/y.git" rfl (by decide)
      (by decide)).1 rfl).2.1⟩

/-- C7: the claim (and the code's own `dead` branch) says a health check
on a stdio connection whose subprocess has exited reports
`status = dead`, `healthy = False` without attempting ping I/O.  The
stored processes are `asyncio.subprocess.Process` values, which have no
`poll` method, so the `process.poll()` call raises `AttributeError` and
the blanket `except` returns `status = error` instead: the `dead` branch
is unreachable.  (No ping I/O happens, but for the wrong reason.)  This
theorem evaluates the embedded code at the failing input. -/
theorem c7_theorem :
    health_check envH0 1 stDead
      = ⟨"error", false, none, some "Process object has no attribute poll"⟩
    ∧ (health_check envH0 1 stDead).status ≠ "dead" := by
  decide

/-- C8: after `disconnect_from_server(x)` the id `x` is absent from both
`active_connections` and `server_processes`, and both maps are unchanged
at every other id, whatever the starting state. -/
theorem c8_theorem (sid : Nat) (st : ClientState) :
    dlookup sid (disconnectFromServer sid st).active_connections = none
    ∧ dlookup sid (disconnectFromServer sid st).server_processes = none
    ∧ ∀ y : Nat, y ≠ sid →
        dlookup y (disconnectFromServer sid st).active_connections
            = dlookup y st.active_connections
        ∧ dlookup y (disconnectFromServer sid st).server_processes
            = dlookup y st.server_processes := by
  obtain ⟨A, S, P, D, np, nt⟩ := st
  unfold disconnectFromServer
  cases hc : dlookup sid A with
  | none =>
      refine ⟨by simpa using hc, dlookup_derase_self _ _, fun y hy => ⟨by simp, ?_⟩⟩
      simpa using dlookup_derase_ne sid y S hy
  | some conn =>
      obtain ⟨ct, pid, td, u⟩ := conn
      refine ⟨?_, ?_, fun y hy => ⟨?_, ?_⟩⟩
      · cases ct <;> cases pid <;> cases td <;>
          simp [terminateProc, rmtreeDir, dlookup_derase_self]
      · cases ct <;> cases pid <;> cases td <;>
          simp [terminateProc, rmtreeDir, dlookup_derase_self]
      · cases ct <;> cases pid <;> cases td <;>
          simp [terminateProc, rmtreeDir, dlookup_derase_ne _ _ _ hy]
      · cases ct <;> cases pid <;> cases td <;>
          simp [terminateProc, rmtreeDir, dlookup_derase_ne _ _ _ hy]

/-- C8, witness: disconnecting server 1 empties its entries and leaves
the lookup of id 2 unchanged. -/
theorem c8_witness :
    dlookup 2 (disconnectFromServer 1 stStdio).server_processes
        = dlookup 2 stStdio.server_processes
    ∧ dlookup 1 (disconnectFromServer 1 stStdio).active_connections = none :=
  ⟨((c8_theorem 1 stStdio).2.2 2 (by decide)).2, (c8_theorem 1 stStdio).1⟩

/-- C9: `health_check` returns a dict on every path (its result type in
the embedding, reflecting the blanket exception handlers on every code
path), and the `healthy` flag is `True` exactly when `status` is
`healthy`. -/
theorem c9_theorem (env : HealthEnv) (sid : Nat) (st : ClientState) :
    (health_check env sid st).healthy = true ↔ (health_check env sid st).status = "healthy" := by
  unfold health_check
  cases hc : dlookup sid st.active_connections with
  | none => simp
  | some conn =>
      by_cases hh : conn.ctype = ConnType.http
      · simp only [hh, if_pos]
        unfold healthCheckHttp
        cases he : env.httpHealth with
        | error m => simp
        | ok p =>
            obtain ⟨status, rt⟩ := p
            by_cases hs : status = 200 <;> simp [hs]
      · simp only [hh, if_neg, ite_false]
        unfold healthCheckStdio
        cases hb : conn.procId.bind (fun pid => findProc pid st) with
        | none => simp
        | some p => simp [processPoll]

/-- C9, witness: a healthy http connection is reported with
`status = healthy`. -/
theorem c9_witness : (health_check envH0 3 stHttp).status = "healthy" :=
  (c9_theorem envH0 3 stHttp).mp rfl

/-- C10: `get_server_capabilities` returns a dict on every path (its
result type in the embedding, reflecting the blanket exception handler);
every failure, the unconnected id included, reports `connected: False`
with an error string, and a success reports `connected: True` with
`tool_count` equal to the length of the returned tool list. -/
theorem c10_theorem (env : ListToolsEnv) (sid : Nat) (st : ClientState) :
    ((get_server_capabilities env sid st).connected = false →
      ((get_server_capabilities env sid st).error).isSome = true)
    ∧ (dlookup sid st.active_connections = none →
      (get_server_capabilities env sid st).connected = false)
    ∧ ((get_server_capabilities env sid st).connected = true →
      ∃ ts, (get_server_capabilities env sid st).tools = some ts
        ∧ (get_server_capabilities env sid st).tool_count = some ts.length) := by
  unfold get_server_capabilities
  cases hc : dlookup sid st.active_connections with
  | none => simp
  | some conn =>
      unfold list_tools
      rw [hc]
      by_cases hh : conn.ctype = ConnType.http
      · simp only [hh, if_pos]
        cases env.http <;> simp [listToolsHttp]
      · simp only [hh, if_neg, ite_false]
        simp

/-- C10, witness: the unconnected id 7 yields `connected: False` with an
error string present. -/
theorem c10_witness :
    (get_server_capabilities envL0 7 st0).connected = false
    ∧ ((get_server_capabilities envL0 7 st0).error).isSome = true :=
  ⟨(c10_theorem envL0 7 st0).2.1 rfl,
   (c10_theorem envL0 7 st0).1 ((c10_theorem envL0 7 st0).2.1 rfl)⟩

end MCP
